import Mathlib

/-!
Verification development for the MedLink patient-record application
(src/index.tsx and the companion source file).  The in-memory patient
store and its operations are embedded shallowly: every React handler that
mutates the `patients` state is translated into a pure function on
`List Patient`, with the ambient inputs of the handler (the selected
patient id, the form fields, `Date.now()` and today's date string) made
explicit parameters.  JavaScript falsiness of strings is rendered as
equality with the empty string, and `Date.now()` as a natural number.
-/

/-- Status enumeration of a lab result, from the LabResult interface in
src/index.tsx (status is one of Normal, Abnormal, Critical). -/
inductive LabStatus where
  | Normal
  | Abnormal
  | Critical
deriving DecidableEq

/-- Gender enumeration from the Patient interface in src/index.tsx. -/
inductive Gender where
  | Male
  | Female
  | Other
deriving DecidableEq

/-- LabResult record, from the LabResult interface in src/index.tsx. -/
structure LabResult where
  id : String
  date : String
  testName : String
  value : String
  unit : String
  referenceRange : String
  status : LabStatus
deriving DecidableEq

/-- RadiologyImage record, from the RadiologyImage interface in
src/index.tsx (id, date, type, description, link). -/
structure RadiologyImage where
  id : String
  date : String
  type : String
  description : String
  link : String
deriving DecidableEq

/-- Vitals of a visit note, from the VisitNote interface in src/index.tsx. -/
structure Vitals where
  bloodPressure : String
  heartRate : String
  temperature : String
deriving DecidableEq

/-- VisitNote record, from the VisitNote interface in src/index.tsx. -/
structure VisitNote where
  id : String
  date : String
  reason : String
  diagnosis : String
  notes : String
  vitals : Vitals
deriving DecidableEq

/-- Modelled from the spec: the Medication entity of the data model
(id, name, dose, start date, end date; an empty end date means
open-ended).  The source under src/ has no medication feature, so this
entity is taken from the data-model section of the specification. -/
structure Medication where
  id : String
  name : String
  dose : String
  startDate : String
  endDate : String
deriving DecidableEq

/-- Patient record, from the Patient interface in src/index.tsx
(id, name, dob, gender, contact, email, bloodType, optional avatar, and
the nested labResults, radiology and visits collections).  The
`medications` collection is modelled from the spec, which lists
Medication among the patient-owned nested collections; the source has no
medication feature.  The object-spread updates of the source preserve
every field they do not mention, which the record-update embedding
mirrors. -/
structure Patient where
  id : String
  name : String
  dob : String
  gender : Gender
  contact : String
  email : String
  bloodType : String
  avatar : Option String
  labResults : List LabResult
  radiology : List RadiologyImage
  visits : List VisitNote
  medications : List Medication
deriving DecidableEq

/-- Candidate lab result returned by the extraction services:
Partial-of-LabResult per the response schema of parseLabResultsCSV /
extractLabFromImage in src/index.tsx (date, testName, value, unit,
status, each possibly absent). -/
structure PartialLabResult where
  date : Option String
  testName : Option String
  value : Option String
  unit : Option String
  status : Option String
deriving DecidableEq

/-- Enrollment operation, from addPatient in src/index.tsx (lines
291-310): the supplied form id is used when non-empty, otherwise a
random id pt-NNNN is generated (`rand` stands for the value of
Math.floor(1000 + Math.random() * 9000)); the new patient is appended to
the list with all nested collections empty.  No duplicate-id or
empty-field check is performed by the handler. -/
def addPatient (patients : List Patient) (formId nameField dob : String)
    (gender : Gender) (contact email bloodType : String) (rand : Nat) :
    List Patient :=
  let customId := if formId = "" then "pt-" ++ toString rand else formId
  patients ++ [{ id := customId, name := nameField, dob := dob,
                 gender := gender, contact := contact, email := email,
                 bloodType := bloodType, avatar := none, labResults := [],
                 radiology := [], visits := [], medications := [] }]

/-- Profile-edit operation, from updatePatient in src/index.tsx (lines
312-336): when a patient is selected (JavaScript truthiness: neither
null nor the empty string), every patient whose id equals the selection
is rebuilt by object spread with the new scalar fields, the rest are
returned unchanged; otherwise the store is untouched.  No NotFoundError
or DuplicateIdError path exists in the handler. -/
def updatePatient (patients : List Patient) (selectedPatientId : Option String)
    (newId nameField dob : String) (gender : Gender)
    (contact email bloodType : String) : List Patient :=
  match selectedPatientId with
  | none => patients
  | some sel =>
    if sel = "" then patients
    else
      patients.map fun p =>
        if p.id = sel then
          { p with id := newId, name := nameField, dob := dob,
                   gender := gender, contact := contact, email := email,
                   bloodType := bloodType }
        else p

/-- Manual lab entry, from addManualLabResult in src/index.tsx (lines
429-447): guarded only by a truthy selected patient, test name and
value; the new result gets id lb- plus Date.now(), the current date,
and status Normal unconditionally, and is prepended to the selected
patient's labResults. -/
def addManualLabResult (patients : List Patient)
    (selectedPatientId : Option String)
    (manualLabTestName manualLabValue manualLabUnit manualLabRange : String)
    (now : Nat) (today : String) : List Patient :=
  match selectedPatientId with
  | none => patients
  | some sel =>
    if sel = "" ∨ manualLabTestName = "" ∨ manualLabValue = "" then patients
    else
      let newLab : LabResult :=
        { id := "lb-" ++ toString now, date := today,
          testName := manualLabTestName, value := manualLabValue,
          unit := manualLabUnit, referenceRange := manualLabRange,
          status := LabStatus.Normal }
      patients.map fun p =>
        if p.id = sel then { p with labResults := newLab :: p.labResults }
        else p

/-- Visit recording, from addVisitNote in src/index.tsx (lines 449-470):
guarded only by a truthy selected patient; the note gets id v- plus
Date.now() and the current date, takes the form fields as given (no
validation of diagnosis or any other field), and is prepended to the
selected patient's visits. -/
def addVisitNote (patients : List Patient) (selectedPatientId : Option String)
    (reason diagnosis notes bp hr temp : String)
    (now : Nat) (today : String) : List Patient :=
  match selectedPatientId with
  | none => patients
  | some sel =>
    if sel = "" then patients
    else
      let newVisit : VisitNote :=
        { id := "v-" ++ toString now, date := today, reason := reason,
          diagnosis := diagnosis, notes := notes,
          vitals := { bloodPressure := bp, heartRate := hr,
                      temperature := temp } }
      patients.map fun p =>
        if p.id = sel then { p with visits := newVisit :: p.visits }
        else p

/-- Imaging-link entry, from addRadiologyLink in src/index.tsx (lines
410-427): guarded by a truthy selected patient, link and type; the new
link gets id rad- plus Date.now(), the current date and a fixed
description, and is prepended to the selected patient's radiology list. -/
def addRadiologyLink (patients : List Patient)
    (selectedPatientId : Option String) (radType radLink : String)
    (now : Nat) (today : String) : List Patient :=
  match selectedPatientId with
  | none => patients
  | some sel =>
    if sel = "" ∨ radLink = "" ∨ radType = "" then patients
    else
      let newImg : RadiologyImage :=
        { id := "rad-" ++ toString now, date := today, type := radType,
          description := "Added via link", link := radLink }
      patients.map fun p =>
        if p.id = sel then { p with radiology := newImg :: p.radiology }
        else p

/-- Containment of a character needle at the head of a list, used to
express the JavaScript String.prototype.includes test of the search
filter. -/
def charsStartWith : List Char → List Char → Bool
  | _, [] => true
  | [], _ :: _ => false
  | c :: cs, d :: ds => (c == d) && charsStartWith cs ds

/-- Containment of a character needle anywhere in a haystack, the
semantics of JavaScript String.prototype.includes. -/
def charsInclude (needle : List Char) : List Char → Bool
  | [] => charsStartWith [] needle
  | c :: cs => charsStartWith (c :: cs) needle || charsInclude needle cs

/-- JavaScript hay.includes(needle) on strings. -/
def jsIncludes (hay needle : String) : Bool :=
  charsInclude needle.data hay.data

/-- JavaScript s.toLowerCase(), lowering each character of the string. -/
def jsToLower (s : String) : String :=
  String.mk (s.data.map Char.toLower)

/-- Predicate of the directory search, from filteredPatients in
src/index.tsx (lines 286-289): the lower-cased name or the lower-cased
id must contain the lower-cased search term. -/
def matchesSearch (term : String) (p : Patient) : Bool :=
  jsIncludes (jsToLower p.name) (jsToLower term) ||
    jsIncludes (jsToLower p.id) (jsToLower term)

/-- Directory search, from filteredPatients in src/index.tsx (lines
286-289): filters the store by `matchesSearch`, keeping store order. -/
def filteredPatients (patients : List Patient) (term : String) : List Patient :=
  patients.filter (matchesSearch term)

/-- Modelled from the spec: lexicographic order on date strings (the
source stores all dates as ISO yyyy-mm-dd strings, on which
lexicographic and chronological order agree).  Used by the
medication-activity rule, which is absent from src/. -/
def charsLe : List Char → List Char → Bool
  | [], _ => true
  | _ :: _, [] => false
  | a :: as, b :: bs => if a = b then charsLe as bs else decide (a < b)

/-- Modelled from the spec: a Medication is active on a given day iff
that day falls within [startDate, endDate] inclusive, an empty endDate
meaning unbounded future.  The medication feature is absent from src/. -/
def isMedicationActive (today : String) (m : Medication) : Bool :=
  charsLe m.startDate.data today.data &&
    (m.endDate == "" || charsLe today.data m.endDate.data)

/-- Modelled from the spec: listActiveMedications(patientId,
prioritizeActive) returns the patient's medications, stable-partitioned
with the currently-active ones first when prioritizeActive is true, and
in stored order when it is false.  The operation is absent from src/. -/
def listActiveMedications (patients : List Patient) (patientId : String)
    (prioritizeActive : Bool) (today : String) : List Medication :=
  match patients.find? (fun p => p.id == patientId) with
  | none => []
  | some p =>
    if prioritizeActive then
      let parts := p.medications.partition (isMedicationActive today)
      parts.1 ++ parts.2
    else p.medications

/-- Modelled from the spec: deleteLabResult(patientId, resultId) removes
the lab result with the given id from that patient's collection,
removing exactly one entry.  The source under src/ has no lab-result
delete operation (only the add paths exist), so the removal is taken
from the operation list of the specification; the error path for absent
ids is not needed by the round-trip claim and is not modelled. -/
def deleteLabResult (patients : List Patient) (patientId resultId : String) :
    List Patient :=
  patients.map fun p =>
    if p.id = patientId then
      { p with labResults := p.labResults.eraseP (fun r => r.id == resultId) }
    else p

/-- Text extraction service wrapper, from parseLabResultsCSV in
src/index.tsx (lines 74-111): the generateContent call is abstracted as
`call` (failure, or a response with an optional text), JSON.parse as
`parse` (which may itself fail); any failure is caught and mapped to the
empty list, and an absent or empty response text is parsed as the empty
JSON array. -/
def parseLabResultsCSV (call : Except String (Option String))
    (parse : String → Except String (List PartialLabResult)) :
    List PartialLabResult :=
  match call with
  | Except.error _ => []
  | Except.ok t =>
    let txt := match t with
      | none => "[]"
      | some s => if s = "" then "[]" else s
    match parse txt with
    | Except.error _ => []
    | Except.ok rs => rs

/-- Image extraction service wrapper, from extractLabFromImage in
src/index.tsx (lines 113-154): identical failure handling to the text
path — any failure of the call or of JSON parsing is caught and mapped
to the empty list. -/
def extractLabFromImage (call : Except String (Option String))
    (parse : String → Except String (List PartialLabResult)) :
    List PartialLabResult :=
  match call with
  | Except.error _ => []
  | Except.ok t =>
    let txt := match t with
      | none => "[]"
      | some s => if s = "" then "[]" else s
    match parse txt with
    | Except.error _ => []
    | Except.ok rs => rs

/-- Summarization service wrapper, from summarizePatientHistory in the
companion source file (lines 63-86): the generateContent call is
abstracted as `call`; a failure is caught and mapped to the fixed
fallback string, and an absent or empty response text yields the
no-summary message. -/
def summarizePatientHistory (_patient : Patient)
    (call : Except String (Option String)) : String :=
  match call with
  | Except.error _ => "Clinical insight unavailable at this time."
  | Except.ok none => "No summary available."
  | Except.ok (some t) => if t = "" then "No summary available." else t

/-! Concrete records used by the counterexamples and witnesses. -/

/-- Concrete patient with id pt-1 and empty nested collections. -/
def pt1 : Patient :=
  { id := "pt-1", name := "Eleanor Vance", dob := "1978-11-04",
    gender := Gender.Female, contact := "", email := "", bloodType := "O+",
    avatar := none, labResults := [], radiology := [], visits := [],
    medications := [] }

/-- Concrete patient with id pt-2 and empty nested collections. -/
def pt2 : Patient :=
  { id := "pt-2", name := "Marcus Thorne", dob := "1992-04-22",
    gender := Gender.Male, contact := "", email := "", bloodType := "A-",
    avatar := none, labResults := [], radiology := [], visits := [],
    medications := [] }

/-! Helper lemmas shared by several claims. -/

/-- Head containment agrees with the existence of a completing tail. -/
theorem charsStartWith_eq_true (l n : List Char) :
    charsStartWith l n = true ↔ ∃ t, n ++ t = l := by
  induction n generalizing l with
  | nil =>
    constructor
    · intro _; exact ⟨l, rfl⟩
    · intro _; cases l <;> rfl
  | cons d ds ih =>
    cases l with
    | nil =>
      simp [charsStartWith]
    | cons c cs =>
      simp only [charsStartWith, Bool.and_eq_true, beq_iff_eq, ih,
        List.cons_append, List.cons.injEq]
      constructor
      · rintro ⟨h1, t, h2⟩; exact ⟨t, h1.symm, h2⟩
      · rintro ⟨t, h1, h2⟩; exact ⟨h1.symm, t, h2⟩

/-- Containment anywhere agrees with the existence of a decomposition
into a part before and a part after the needle. -/
theorem charsInclude_eq_true (n l : List Char) :
    charsInclude n l = true ↔ ∃ s t, s ++ n ++ t = l := by
  induction l with
  | nil =>
    simp [charsInclude, charsStartWith_eq_true, List.append_eq_nil]
  | cons c cs ih =>
    simp only [charsInclude, Bool.or_eq_true, charsStartWith_eq_true, ih]
    constructor
    · rintro (⟨t, ht⟩ | ⟨s, t, ht⟩)
      · exact ⟨[], t, by simpa using ht⟩
      · exact ⟨c :: s, t, by simp [ht]⟩
    · rintro ⟨s, t, ht⟩
      cases s with
      | nil => exact Or.inl ⟨t, by simpa using ht⟩
      | cons a s =>
        rw [List.cons_append, List.cons_append] at ht
        injection ht with h1 h2
        exact Or.inr ⟨s, t, h2⟩

/-- Mapping an id-preserving function over the store commutes with
looking a patient up by id. -/
theorem find?_map_preserving (f : Patient → Patient) (sel : String)
    (hid : ∀ x, (f x).id = x.id) (ps : List Patient) (p : Patient)
    (hp : ps.find? (fun q => q.id == sel) = some p) :
    (ps.map f).find? (fun q => q.id == sel) = some (f p) := by
  rw [List.find?_map]
  have hfun : ((fun q : Patient => q.id == sel) ∘ f)
      = (fun x : Patient => x.id == sel) := by
    funext x
    simp [Function.comp, hid]
  rw [hfun, hp, Option.map_some']

/-- Mapping a conditional per-patient update over a store in which no
patient carries the selected id leaves the store unchanged. -/
theorem map_update_id_of_absent (ps : List Patient) (sel : String)
    (f : Patient → Patient) (habs : ∀ p ∈ ps, ¬ p.id = sel) :
    (ps.map fun p => if p.id = sel then f p else p) = ps := by
  induction ps with
  | nil => rfl
  | cons a l ih =>
    rw [List.map_cons, if_neg (habs a (List.mem_cons_self a l)),
      ih (fun p hp => habs p (List.mem_cons_of_mem a hp))]

/-! Claim theorems. -/

/-- Claim C1, counterexample: calling the enrollment operation with the
id pt-1 that is already present neither fails nor leaves the store
unchanged — the store grows to two patients that both carry id pt-1. -/
theorem addPatient_duplicateId_not_rejected :
    addPatient [pt1] "pt-1" "Marcus Thorne" "1992-04-22" Gender.Male
        "" "" "" 1234 ≠ [pt1]
    ∧ (addPatient [pt1] "pt-1" "Marcus Thorne" "1992-04-22" Gender.Male
        "" "" "" 1234).map Patient.id = ["pt-1", "pt-1"] :=
  ⟨by decide, by decide⟩

/-- Claim C1, amended: the enrollment operation never fails.  It
unconditionally appends one patient built from the form fields — the
supplied id when non-empty (even when that id is already in the store),
otherwise pt- followed by the random number — with every nested
collection initialized empty, and leaves all existing patients in place
unmodified. -/
theorem addPatient_appends_unconditionally (ps : List Patient)
    (formId nameField dob : String) (g : Gender)
    (contact email bloodType : String) (rand : Nat) :
    addPatient ps formId nameField dob g contact email bloodType rand
      = ps ++ [{ id := if formId = "" then "pt-" ++ toString rand else formId,
                 name := nameField, dob := dob, gender := g,
                 contact := contact, email := email, bloodType := bloodType,
                 avatar := none, labResults := [], radiology := [],
                 visits := [], medications := [] }] := rfl

/-- Claim C2, counterexample: renaming patient pt-2 to the id pt-1 of a
different existing patient is not rejected — the rename is applied and
the store ends up with two patients that both carry id pt-1, so the
store is changed rather than left unchanged with a DuplicateIdError. -/
theorem updatePatient_colliding_rename_applied :
    (updatePatient [pt1, pt2] (some "pt-2") "pt-1" "Marcus Thorne"
        "1992-04-22" Gender.Male "" "" "A-").map Patient.id
      = ["pt-1", "pt-1"]
    ∧ updatePatient [pt1, pt2] (some "pt-2") "pt-1" "Marcus Thorne"
        "1992-04-22" Gender.Male "" "" "A-" ≠ [pt1, pt2] :=
  ⟨by decide, by decide⟩

/-- Claim C2, amended: updatePatient with an absent selection (no
selected patient, an empty selected id, or a selected id carried by no
patient in the store) leaves the store unchanged, but it signals no
NotFoundError; and a new id colliding with a different existing patient
is not rejected (no DuplicateIdError) — the rename is applied, as the
counterexample shows. -/
theorem updatePatient_absent_id_leaves_store (ps : List Patient)
    (sel newId nameField dob : String) (g : Gender)
    (contact email bloodType : String)
    (habs : ∀ p ∈ ps, ¬ p.id = sel) :
    updatePatient ps none newId nameField dob g contact email bloodType = ps
    ∧ updatePatient ps (some "") newId nameField dob g contact email
        bloodType = ps
    ∧ updatePatient ps (some sel) newId nameField dob g contact email
        bloodType = ps := by
  refine ⟨rfl, rfl, ?_⟩
  simp only [updatePatient]
  by_cases hsel : sel = ""
  · rw [if_pos hsel]
  · rw [if_neg hsel]
    exact map_update_id_of_absent ps sel _ habs

/-- Claim C2, witness: the amended statement evaluated on a concrete
store holding only pt-1, with the absent selection pt-9. -/
theorem updatePatient_absent_id_leaves_store_witness :
    updatePatient [pt1] none "x" "n" "d" Gender.Other "" "" "" = [pt1]
    ∧ updatePatient [pt1] (some "") "x" "n" "d" Gender.Other "" "" "" = [pt1]
    ∧ updatePatient [pt1] (some "pt-9") "x" "n" "d" Gender.Other "" "" ""
        = [pt1] :=
  updatePatient_absent_id_leaves_store [pt1] "pt-9" "x" "n" "d" Gender.Other
    "" "" "" (by decide)

/-- Claim C3: updatePatient — in particular an id rename — preserves
every patient's nested collections exactly, in content and order: the
per-patient quadruple of lab results, radiology links, visits and
medications is the same before and after the operation, position by
position. -/
theorem updatePatient_preserves_nested_collections (ps : List Patient)
    (selOpt : Option String) (newId nameField dob : String) (g : Gender)
    (contact email bloodType : String) :
    (updatePatient ps selOpt newId nameField dob g contact email
        bloodType).map
        (fun p => (p.labResults, p.radiology, p.visits, p.medications))
      = ps.map
        (fun p => (p.labResults, p.radiology, p.visits, p.medications)) := by
  cases selOpt with
  | none => rfl
  | some sel =>
    simp only [updatePatient]
    by_cases hsel : sel = ""
    · rw [if_pos hsel]
    · rw [if_neg hsel, List.map_map]
      refine List.map_congr_left (fun p _ => ?_)
      by_cases hp : p.id = sel
      · simp [hp, Function.comp]
      · simp [hp, Function.comp]

/-- Concrete pre-existing lab result with id lb-5. -/
def labOld : LabResult :=
  { id := "lb-5", date := "2024-02-10", testName := "Glucose", value := "95",
    unit := "mg/dL", referenceRange := "70-99", status := LabStatus.Normal }

/-- Concrete patient pt-1 that already owns the lab result lb-5. -/
def ptW : Patient := { pt1 with labResults := [labOld] }

/-- Claim C4, counterexample: the manual lab entry assigns id lb- plus
the current timestamp without any collision check, so when the selected
patient already owns a result with id lb-5 and the operation runs at
timestamp 5, the collection ends up with two lab results that both carry
id lb-5 — the assigned id is not fresh. -/
theorem addManualLabResult_id_collision :
    (addManualLabResult [ptW] (some "pt-1") "Glucose" "98" "mg/dL" "70-99"
        5 "2024-03-01").map (fun p => p.labResults.map LabResult.id)
      = [["lb-5", "lb-5"]] := by decide

/-- Claim C4, amended: the add operations assign ids of a fixed prefix
plus the current timestamp (lab lb-, visit v-, radiology rad-; the
enrollment operation uses the supplied id or pt- plus a random number)
with no collision check, so the assigned id is fresh in its collection
exactly when that string does not already occur among the collection's
ids; under that hypothesis each operation prepends its new entry with an
id distinct from every id already present. -/
theorem add_operations_fresh_id_under_distinct_timestamp
    (ps : List Patient)
    (sel tn v u rng reason diag nts bp hr temp rType rLink : String)
    (now : Nat) (today : String) (p : Patient)
    (hfind : ps.find? (fun q => q.id == sel) = some p)
    (hsel : ¬ sel = "") (htn : ¬ tn = "") (hv : ¬ v = "")
    (hlab : ¬ ("lb-" ++ toString now) ∈ p.labResults.map LabResult.id)
    (hvisit : ¬ ("v-" ++ toString now) ∈ p.visits.map VisitNote.id)
    (hrad : ¬ ("rad-" ++ toString now) ∈ p.radiology.map RadiologyImage.id)
    (hrt : ¬ rType = "") (hrl : ¬ rLink = "") :
    ((addManualLabResult ps (some sel) tn v u rng now today).find?
        (fun q => q.id == sel)
      = some { p with labResults :=
          { id := "lb-" ++ toString now, date := today, testName := tn,
            value := v, unit := u, referenceRange := rng,
            status := LabStatus.Normal } :: p.labResults }
      ∧ ¬ ("lb-" ++ toString now) ∈ p.labResults.map LabResult.id)
    ∧ ((addVisitNote ps (some sel) reason diag nts bp hr temp now
          today).find? (fun q => q.id == sel)
      = some { p with visits :=
          { id := "v-" ++ toString now, date := today, reason := reason,
            diagnosis := diag, notes := nts,
            vitals := { bloodPressure := bp, heartRate := hr,
                        temperature := temp } } :: p.visits }
      ∧ ¬ ("v-" ++ toString now) ∈ p.visits.map VisitNote.id)
    ∧ ((addRadiologyLink ps (some sel) rType rLink now today).find?
        (fun q => q.id == sel)
      = some { p with radiology :=
          { id := "rad-" ++ toString now, date := today, type := rType,
            description := "Added via link", link := rLink } :: p.radiology }
      ∧ ¬ ("rad-" ++ toString now) ∈ p.radiology.map RadiologyImage.id) := by
  have hpid : p.id = sel := by simpa using List.find?_some hfind
  refine ⟨⟨?_, hlab⟩, ⟨?_, hvisit⟩, ⟨?_, hrad⟩⟩
  · simp only [addManualLabResult]
    rw [if_neg (by simp [hsel, htn, hv])]
    refine (find?_map_preserving _ sel
      (fun x => by by_cases hx : x.id = sel <;> simp [hx]) ps p hfind).trans ?_
    simp [hpid]
  · simp only [addVisitNote]
    rw [if_neg hsel]
    refine (find?_map_preserving _ sel
      (fun x => by by_cases hx : x.id = sel <;> simp [hx]) ps p hfind).trans ?_
    simp [hpid]
  · simp only [addRadiologyLink]
    rw [if_neg (by simp [hsel, hrt, hrl])]
    refine (find?_map_preserving _ sel
      (fun x => by by_cases hx : x.id = sel <;> simp [hx]) ps p hfind).trans ?_
    simp [hpid]

/-- Claim C4, witness: the amended statement evaluated on a concrete
store in which patient pt-1 already owns the lab result lb-5, at the
distinct timestamp 7. -/
theorem add_operations_fresh_id_witness :
    ((addManualLabResult [ptW] (some "pt-1") "Glucose" "95" "mg/dL" "70-99"
        7 "2024-03-01").find? (fun q => q.id == "pt-1")
      = some { ptW with labResults :=
          { id := "lb-" ++ toString 7, date := "2024-03-01",
            testName := "Glucose", value := "95", unit := "mg/dL",
            referenceRange := "70-99",
            status := LabStatus.Normal } :: ptW.labResults }
      ∧ ¬ ("lb-" ++ toString 7) ∈ ptW.labResults.map LabResult.id)
    ∧ ((addVisitNote [ptW] (some "pt-1") "Follow-up" "Osteoarthritis" "n"
          "120/80" "70" "98.4" 7 "2024-03-01").find?
            (fun q => q.id == "pt-1")
      = some { ptW with visits :=
          { id := "v-" ++ toString 7, date := "2024-03-01",
            reason := "Follow-up", diagnosis := "Osteoarthritis",
            notes := "n",
            vitals := { bloodPressure := "120/80", heartRate := "70",
                        temperature := "98.4" } } :: ptW.visits }
      ∧ ¬ ("v-" ++ toString 7) ∈ ptW.visits.map VisitNote.id)
    ∧ ((addRadiologyLink [ptW] (some "pt-1") "MRI Knee"
          "https://imaging.example.com" 7 "2024-03-01").find?
            (fun q => q.id == "pt-1")
      = some { ptW with radiology :=
          { id := "rad-" ++ toString 7, date := "2024-03-01",
            type := "MRI Knee", description := "Added via link",
            link := "https://imaging.example.com" } :: ptW.radiology }
      ∧ ¬ ("rad-" ++ toString 7) ∈ ptW.radiology.map RadiologyImage.id) :=
  add_operations_fresh_id_under_distinct_timestamp [ptW] "pt-1" "Glucose"
    "95" "mg/dL" "70-99" "Follow-up" "Osteoarthritis" "n" "120/80" "70"
    "98.4" "MRI Knee" "https://imaging.example.com" 7 "2024-03-01" ptW
    (by decide) (by decide) (by decide) (by decide) (by decide) (by decide)
    (by decide) (by decide) (by decide)

/-- Claim C5: with prioritizeActive true, listActiveMedications returns
the found patient's medications stable-partitioned — first every
currently-active medication and then every inactive one, each side a
filter of the stored list and hence in its stored relative order; with
prioritizeActive false it returns the stored order unchanged. -/
theorem listActiveMedications_stable_partition (ps : List Patient)
    (pid today : String) (p : Patient)
    (hfind : ps.find? (fun q => q.id == pid) = some p) :
    listActiveMedications ps pid true today
        = p.medications.filter (isMedicationActive today)
          ++ p.medications.filter (fun m => ! isMedicationActive today m)
      ∧ listActiveMedications ps pid false today = p.medications := by
  constructor
  · simp only [listActiveMedications, hfind]
    rw [List.partition_eq_filter_filter]
    simp only [Function.comp]
    rfl
  · simp [listActiveMedications, hfind]

/-- Concrete medications for the stable-partition witness: on the day
2024-01-15, medA has not started yet (inactive), medB is open-ended and
started (active), medC is inside its inclusive range (active). -/
def medA : Medication :=
  { id := "m-a", name := "Atorvastatin", dose := "10mg",
    startDate := "2024-02-01", endDate := "" }

/-- Open-ended medication active on the witness date. -/
def medB : Medication :=
  { id := "m-b", name := "Lisinopril", dose := "5mg",
    startDate := "2023-01-01", endDate := "" }

/-- Bounded medication active on the witness date. -/
def medC : Medication :=
  { id := "m-c", name := "Metformin", dose := "500mg",
    startDate := "2024-01-10", endDate := "2024-01-20" }

/-- Concrete patient pt-1 with medication list [medA, medB, medC]. -/
def ptMed : Patient := { pt1 with medications := [medA, medB, medC] }

/-- Claim C5, witness: the stable partition evaluated on the concrete
store holding ptMed, on the day 2024-01-15. -/
theorem listActiveMedications_stable_partition_witness :
    listActiveMedications [ptMed] "pt-1" true "2024-01-15"
        = ptMed.medications.filter (isMedicationActive "2024-01-15")
          ++ ptMed.medications.filter
            (fun m => ! isMedicationActive "2024-01-15" m)
      ∧ listActiveMedications [ptMed] "pt-1" false "2024-01-15"
        = ptMed.medications :=
  listActiveMedications_stable_partition [ptMed] "pt-1" "2024-01-15" ptMed
    (by decide)

/-- Sanity check of the spec example: on [A(inactive), B(active),
C(active)] the prioritized listing is [B, C, A], with B still before C. -/
example :
    listActiveMedications [ptMed] "pt-1" true "2024-01-15"
      = [medB, medC, medA] := by decide

/-- Claim C6: the add-then-delete round trip.  Adding a lab result and
deleting it again through the id the add assigned (lb- plus the
timestamp) restores the entire store — the added entry is removed and
every other lab result of every patient is untouched. -/
theorem addLabResult_deleteLabResult_roundtrip (ps : List Patient)
    (sel tn v u rng : String) (now : Nat) (today : String)
    (hsel : ¬ sel = "") (htn : ¬ tn = "") (hv : ¬ v = "") :
    deleteLabResult (addManualLabResult ps (some sel) tn v u rng now today)
        sel ("lb-" ++ toString now) = ps := by
  simp only [addManualLabResult]
  rw [if_neg (by simp [hsel, htn, hv])]
  simp only [deleteLabResult, List.map_map]
  refine Eq.trans (List.map_congr_left fun p _ => ?_) (List.map_id ps)
  by_cases hpid : p.id = sel
  · simp only [Function.comp, hpid, if_pos]
    rw [List.eraseP_cons_of_pos (by simp)]
    rw [← hpid]
    rfl
  · simp [Function.comp, hpid]

/-- Claim C6, witness: the round trip evaluated on the concrete store
holding ptW (which already owns lab result lb-5), adding at timestamp 7
and deleting lb-7 again. -/
theorem addLabResult_deleteLabResult_roundtrip_witness :
    deleteLabResult (addManualLabResult [ptW] (some "pt-1") "Glucose" "95"
        "mg/dL" "70-99" 7 "2024-03-01") "pt-1" ("lb-" ++ toString 7)
      = [ptW] :=
  addLabResult_deleteLabResult_roundtrip [ptW] "pt-1" "Glucose" "95"
    "mg/dL" "70-99" 7 "2024-03-01" (by decide) (by decide) (by decide)

/-- Claim C7, counterexample: recording a visit with an empty diagnosis
is not rejected — no ValidationError exists in the handler — and the
note is appended: the targeted patient's visits collection gains an
entry whose diagnosis is the empty string, so the store is changed. -/
theorem addVisitNote_empty_diagnosis_appends :
    (addVisitNote [pt1] (some "pt-1") "Follow-up" "" "notes" "120/80" "70"
        "98.4" 9 "2024-03-02").map (fun p => p.visits.map VisitNote.diagnosis)
      = [[""]]
    ∧ addVisitNote [pt1] (some "pt-1") "Follow-up" "" "notes" "120/80" "70"
        "98.4" 9 "2024-03-02" ≠ [pt1] :=
  ⟨by decide, by decide⟩

/-- Claim C7, amended: addVisitNote performs no diagnosis validation.
With a selected patient present it prepends the note exactly as given,
even when the diagnosis field is empty (the required-field check lives
only in the HTML form, not in the operation); only a missing or empty
patient selection leaves the store unchanged. -/
theorem addVisitNote_appends_without_validation (ps : List Patient)
    (sel reason diag nts bp hr temp : String) (now : Nat) (today : String)
    (p : Patient) (hfind : ps.find? (fun q => q.id == sel) = some p)
    (hsel : ¬ sel = "") :
    addVisitNote ps none reason diag nts bp hr temp now today = ps
    ∧ addVisitNote ps (some "") reason diag nts bp hr temp now today = ps
    ∧ (addVisitNote ps (some sel) reason diag nts bp hr temp now
          today).find? (fun q => q.id == sel)
      = some { p with visits :=
          { id := "v-" ++ toString now, date := today, reason := reason,
            diagnosis := diag, notes := nts,
            vitals := { bloodPressure := bp, heartRate := hr,
                        temperature := temp } } :: p.visits } := by
  have hpid : p.id = sel := by simpa using List.find?_some hfind
  refine ⟨rfl, rfl, ?_⟩
  simp only [addVisitNote]
  rw [if_neg hsel]
  refine (find?_map_preserving _ sel
    (fun x => by by_cases hx : x.id = sel <;> simp [hx]) ps p hfind).trans ?_
  simp [hpid]

/-- Claim C7, witness: the amended statement evaluated on the concrete
store holding pt-1, with an empty diagnosis. -/
theorem addVisitNote_appends_without_validation_witness :
    addVisitNote [pt1] none "Checkup" "" "n" "110/70" "64" "98.2" 3
        "2024-04-01" = [pt1]
    ∧ addVisitNote [pt1] (some "") "Checkup" "" "n" "110/70" "64" "98.2" 3
        "2024-04-01" = [pt1]
    ∧ (addVisitNote [pt1] (some "pt-1") "Checkup" "" "n" "110/70" "64"
          "98.2" 3 "2024-04-01").find? (fun q => q.id == "pt-1")
      = some { pt1 with visits :=
          { id := "v-" ++ toString 3, date := "2024-04-01",
            reason := "Checkup", diagnosis := "", notes := "n",
            vitals := { bloodPressure := "110/70", heartRate := "64",
                        temperature := "98.2" } } :: pt1.visits } :=
  addVisitNote_appends_without_validation [pt1] "pt-1" "Checkup" "" "n"
    "110/70" "64" "98.2" 3 "2024-04-01" pt1 (by decide) (by decide)

/-- Claim C8: failures of the external extraction and summarization
calls never surface as errors.  A failed service call makes both
extraction wrappers return the empty list and the summarization wrapper
return the fixed fallback string, and a failure of the JSON parsing step
inside the extraction wrappers likewise yields the empty list; the
wrappers are total, so no error state is produced. -/
theorem external_service_failures_degrade_gracefully
    (e msg : String) (t : Option String) (pat : Patient)
    (parse : String → Except String (List PartialLabResult)) :
    parseLabResultsCSV (Except.error e) parse = []
    ∧ extractLabFromImage (Except.error e) parse = []
    ∧ summarizePatientHistory pat (Except.error e)
        = "Clinical insight unavailable at this time."
    ∧ parseLabResultsCSV (Except.ok t) (fun _ => Except.error msg) = []
    ∧ extractLabFromImage (Except.ok t) (fun _ => Except.error msg) = [] :=
  ⟨rfl, rfl, rfl, rfl, rfl⟩

/-- Claim C9: the directory search returns exactly the patients whose
lower-cased name or id contains the lower-cased term as a substring; it
is a sublist of the store (hence in store order), and the empty term
returns the whole store. -/
theorem filteredPatients_search_characterization (ps : List Patient)
    (t : String) (p : Patient) :
    filteredPatients ps "" = ps
    ∧ List.Sublist (filteredPatients ps t) ps
    ∧ (p ∈ filteredPatients ps t ↔
        p ∈ ps ∧
          ((∃ s r, s ++ (jsToLower t).data ++ r = (jsToLower p.name).data)
            ∨ (∃ s r, s ++ (jsToLower t).data ++ r
                = (jsToLower p.id).data))) := by
  refine ⟨?_, List.filter_sublist ps, ?_⟩
  · apply List.filter_eq_self.mpr
    intro a _
    show matchesSearch "" a = true
    simp only [matchesSearch, jsIncludes, Bool.or_eq_true]
    left
    have h0 : (jsToLower "").data = ([] : List Char) := rfl
    rw [h0]
    cases (jsToLower a.name).data <;> rfl
  · simp only [filteredPatients]
    rw [List.mem_filter]
    refine and_congr_right fun _ => ?_
    simp only [matchesSearch, jsIncludes, Bool.or_eq_true,
      charsInclude_eq_true]

/-- Claim C10: every lab result created through the manual lab-entry
operation carries status Normal.  The handler takes no status input at
all, and for arbitrary test name, value, unit and reference range the
entry it prepends to the selected patient has status Normal. -/
theorem addManualLabResult_status_always_normal (ps : List Patient)
    (sel tn v u rng : String) (now : Nat) (today : String) (p : Patient)
    (hfind : ps.find? (fun q => q.id == sel) = some p)
    (hsel : ¬ sel = "") (htn : ¬ tn = "") (hv : ¬ v = "") :
    (addManualLabResult ps (some sel) tn v u rng now today).find?
        (fun q => q.id == sel)
      = some { p with labResults :=
          { id := "lb-" ++ toString now, date := today, testName := tn,
            value := v, unit := u, referenceRange := rng,
            status := LabStatus.Normal } :: p.labResults } := by
  have hpid : p.id = sel := by simpa using List.find?_some hfind
  simp only [addManualLabResult]
  rw [if_neg (by simp [hsel, htn, hv])]
  refine (find?_map_preserving _ sel
    (fun x => by by_cases hx : x.id = sel <;> simp [hx]) ps p hfind).trans ?_
  simp [hpid]

/-- Claim C10, witness: the statement evaluated on the concrete store
holding pt-2, at timestamp 11. -/
theorem addManualLabResult_status_always_normal_witness :
    (addManualLabResult [pt2] (some "pt-2") "Creatinine" "1.1" "mg/dL"
        "0.7-1.3" 11 "2024-05-01").find? (fun q => q.id == "pt-2")
      = some { pt2 with labResults :=
          { id := "lb-" ++ toString 11, date := "2024-05-01",
            testName := "Creatinine", value := "1.1", unit := "mg/dL",
            referenceRange := "0.7-1.3",
            status := LabStatus.Normal } :: pt2.labResults } :=
  addManualLabResult_status_always_normal [pt2] "pt-2" "Creatinine" "1.1"
    "mg/dL" "0.7-1.3" 11 "2024-05-01" pt2 (by decide) (by decide)
    (by decide) (by decide)
